import Mathlib

/-!
Shallow embedding of the RabbitMQ broker controller of asyncapi-codegen
(`pkg/extensions/brokers/rabbitmq`): the `Controller` with its
`NewController` construction, `Publish`, `Subscribe` and `Close`, the
header conversion performed on the publish and subscribe paths, and the
`AcknowledgementHandler`.  The AMQP library is an external transport: its
calls are modelled by oracles giving the result of each call, and every
operation the controller issues to the transport is recorded in a trace.
-/

deriving instance DecidableEq for Except

namespace RabbitMQBroker

/-- Byte strings (Go `[]byte`), as lists of byte values. -/
abbrev Bytes := List Nat

/-- The message given to the broker (`extensions.BrokerMessage`): a headers
mapping from string keys to byte values, and an opaque payload. -/
structure BrokerMessage where
  headers : List (String × Bytes)
  payload : Bytes
deriving DecidableEq

/-- A value stored in an AMQP wire table (`amqp.Table`).  The subscribe-side
conversion distinguishes exactly three shapes: byte sequences, strings, and
any other value, the latter carried here by its default string rendering
(Go `fmt.Sprintf` with the `%v` verb). -/
inductive FieldValue where
  | bytes (b : Bytes)
  | str (s : String)
  | other (rendered : String)
deriving DecidableEq

/-- UTF8 byte encoding of a string: the Go conversion from `string` to
`[]byte`. -/
def utf8Bytes (s : String) : Bytes :=
  s.toUTF8.toList.map (fun b => b.toNat)

/-- Publish-side header conversion (part_000 lines 311-315): every entry of
the domain mapping is stored in the wire table under the same key, the byte
value passed through unchanged. -/
def encodeHeaders : List (String × Bytes) → List (String × FieldValue)
  | [] => []
  | (k, v) :: rest => (k, FieldValue.bytes v) :: encodeHeaders rest

/-- Subscribe-side coercion of one wire value (part_000 lines 393-401):
byte sequences pass through, strings are UTF8-encoded, anything else is
rendered to its default string representation and then UTF8-encoded. -/
def decodeValue : FieldValue → Bytes
  | FieldValue.bytes b => b
  | FieldValue.str s => utf8Bytes s
  | FieldValue.other r => utf8Bytes r

/-- Subscribe-side header conversion (part_000 lines 392-402): each wire
table entry is decoded by `decodeValue` under its key. -/
def decodeHeaders : List (String × FieldValue) → List (String × Bytes)
  | [] => []
  | (k, v) :: rest => (k, decodeValue v) :: decodeHeaders rest

/-- Identity of the shared AMQP connection object. -/
structure Connection where
  connId : Nat
deriving DecidableEq

/-- Identity of a dedicated AMQP channel derived from the connection. -/
structure AMQPChannel where
  chanId : Nat
deriving DecidableEq

/-- Arguments of a queue declaration, in the order of the Go
`channel.QueueDeclare` call: name, durable, auto-delete, exclusive,
no-wait. -/
structure DeclareArgs where
  queue : String
  durable : Bool
  autoDelete : Bool
  exclusive : Bool
  noWait : Bool
deriving DecidableEq

/-- The declaration arguments used by both `Publish` (part_000 lines
299-306) and `Subscribe` (lines 353-360): all four flags false. -/
def mkDeclareArgs (queueName : String) : DeclareArgs :=
  { queue := queueName, durable := false, autoDelete := false,
    exclusive := false, noWait := false }

/-- The wire message handed to `channel.Publish` (`amqp.Publishing`). -/
structure Publishing where
  contentType : String
  body : Bytes
  headers : List (String × FieldValue)
deriving DecidableEq

/-- One operation issued to the AMQP transport, as recorded in traces. -/
inductive TransportOp where
  | openChannel
  | queueDeclare (args : DeclareArgs)
  | publishMsg (exchange routingKey : String) (mandatory immediate : Bool)
      (msg : Publishing)
  | consume (queue consumerTag : String)
      (autoAck exclusiveC noLocal noWait : Bool)
  | consumerCancel (ch : AMQPChannel)
  | channelClose (ch : AMQPChannel)
  | connectionClose
deriving DecidableEq

/-- The controller (part_000 lines 223-228): url, optional connection,
logger capability (opaque, identified by number) and queue group. -/
structure Controller where
  url : String
  connection : Option Connection
  logger : Nat
  queueGroup : String
deriving DecidableEq

/-- Errors `Publish` can return, one per failing transport step. -/
inductive PublishError where
  | channelError (e : String)
  | declareError (e : String)
  | transportError (e : String)
deriving DecidableEq

/-- Results the AMQP library gives to the three transport calls a
`Publish` invocation makes, for a given connection value. -/
structure PublishEnv where
  channelResult : Except String AMQPChannel
  declareResult : Except String Unit
  publishResult : Except String Unit

/-- Outcome of a `Publish` call: the returned value and the transport
operations issued, in order. -/
structure PublishOutcome where
  result : Except PublishError Unit
  trace : List TransportOp
deriving DecidableEq

/-- Controller.Publish (part_000 lines 291-333): open a dedicated channel
(closing it again on every later path, per the deferred close), declare the
queue with fixed flags, convert the headers, and publish with the constant
content type and the payload as body. -/
def Controller.Publish (c : Controller) (env : Option Connection → PublishEnv)
    (queueName : String) (bm : BrokerMessage) : PublishOutcome :=
  let pe := env c.connection
  match pe.channelResult with
  | Except.error e =>
      { result := Except.error (PublishError.channelError e)
        trace := [TransportOp.openChannel] }
  | Except.ok ch =>
      match pe.declareResult with
      | Except.error e =>
          { result := Except.error
              (PublishError.declareError ("failed to declare queue: " ++ e))
            trace := [TransportOp.openChannel,
                      TransportOp.queueDeclare (mkDeclareArgs queueName),
                      TransportOp.channelClose ch] }
      | Except.ok _ =>
          let msg : Publishing :=
            { contentType := "text/plain", body := bm.payload,
              headers := encodeHeaders bm.headers }
          match pe.publishResult with
          | Except.error e =>
              { result := Except.error (PublishError.transportError e)
                trace := [TransportOp.openChannel,
                          TransportOp.queueDeclare (mkDeclareArgs queueName),
                          TransportOp.publishMsg "" queueName false false msg,
                          TransportOp.channelClose ch] }
          | Except.ok _ =>
              { result := Except.ok ()
                trace := [TransportOp.openChannel,
                          TransportOp.queueDeclare (mkDeclareArgs queueName),
                          TransportOp.publishMsg "" queueName false false msg,
                          TransportOp.channelClose ch] }

/-- A raw delivery received from the transport (`amqp.Delivery`): wire
headers, body, and the tag identifying it for acknowledgement. -/
structure Delivery where
  headers : List (String × FieldValue)
  body : Bytes
  deliveryTag : Nat
deriving DecidableEq

/-- A converted delivery paired with its acknowledgement handler, which
stores the delivery it acts on (part_000 lines 405-413 and 430-432). -/
structure AcknowledgeableBrokerMessage where
  message : BrokerMessage
  handlerDelivery : Delivery
deriving DecidableEq

/-- Conversion of one raw delivery performed by the forwarding task
(part_000 lines 390-413): headers are decoded, the body becomes the
payload, and the handler keeps the delivery. -/
def convertDelivery (d : Delivery) : AcknowledgeableBrokerMessage :=
  { message := { headers := decodeHeaders d.headers, payload := d.body }
    handlerDelivery := d }

/-- The background forwarding task (part_000 lines 388-415): it reads raw
deliveries in arrival order and transmits each converted message before
reading the next. -/
def forwardLoop : List Delivery → List AcknowledgeableBrokerMessage
  | [] => []
  | d :: rest => convertDelivery d :: forwardLoop rest

/-- Modelled from the spec: `brokers.BrokerMessagesQueueSize`, the fixed
configured constant giving the capacity of a subscription's internal
message buffer; its defining code lies outside the sources at hand, the
spec fixes only that it is one constant. -/
def BrokerMessagesQueueSize : Nat := 64

/-- The subscription returned by `Subscribe`: capacities of its two
internal channels (part_000 lines 341-344), the messages its pipeline
transmits over its lifetime in order, and the dedicated channel it keeps
open. -/
structure Subscription where
  messagesCapacity : Nat
  cancelCapacity : Nat
  messages : List AcknowledgeableBrokerMessage
  channel : Option AMQPChannel
deriving DecidableEq

/-- Errors `Subscribe` can return, one per failing transport step. -/
inductive SubscribeError where
  | channelError (e : String)
  | declareError (e : String)
  | consumeStartError (e : String)
deriving DecidableEq

/-- Results the AMQP library gives to the transport calls a `Subscribe`
invocation makes; a successful consume yields the stream of deliveries the
subscription will receive. -/
structure SubscribeEnv where
  channelResult : Except String AMQPChannel
  declareResult : Except String Unit
  consumeResult : Except String (List Delivery)

/-- Outcome of a `Subscribe` call: the returned value and the transport
operations issued during the call, in order. -/
structure SubscribeOutcome where
  result : Except SubscribeError Subscription
  trace : List TransportOp
deriving DecidableEq

/-- Controller.Subscribe (part_000 lines 338-418): create the subscription
channels with the configured capacities, open a dedicated channel, declare
the queue with fixed flags, start consuming, and start the forwarding
pipeline; the dedicated channel is not closed during the call. -/
def Controller.Subscribe (c : Controller)
    (env : Option Connection → SubscribeEnv) (queueName : String) :
    SubscribeOutcome :=
  let se := env c.connection
  match se.channelResult with
  | Except.error e =>
      { result := Except.error (SubscribeError.channelError e)
        trace := [TransportOp.openChannel] }
  | Except.ok ch =>
      match se.declareResult with
      | Except.error e =>
          { result := Except.error
              (SubscribeError.declareError ("failed to declare queue: " ++ e))
            trace := [TransportOp.openChannel,
                      TransportOp.queueDeclare (mkDeclareArgs queueName)] }
      | Except.ok _ =>
          match se.consumeResult with
          | Except.error e =>
              { result := Except.error (SubscribeError.consumeStartError
                  ("failed to start consuming from queue: " ++ e))
                trace := [TransportOp.openChannel,
                          TransportOp.queueDeclare (mkDeclareArgs queueName),
                          TransportOp.consume queueName "" false false false
                            false] }
          | Except.ok msgs =>
              { result := Except.ok
                  { messagesCapacity := BrokerMessagesQueueSize
                    cancelCapacity := 1
                    messages := forwardLoop msgs
                    channel := some ch }
                trace := [TransportOp.openChannel,
                          TransportOp.queueDeclare (mkDeclareArgs queueName),
                          TransportOp.consume queueName "" false false false
                            false] }

/-- Cleanup performed when a subscription is cancelled (part_000 lines
380-385): transport-level consumer cancellation on the subscription's
channel, then the close of that channel. -/
def subscriptionCleanupOps (ch : AMQPChannel) : List TransportOp :=
  [TransportOp.consumerCancel ch, TransportOp.channelClose ch]

/-- Modelled from the spec: the one-shot cancellation control of
`extensions.BrokerChannelSubscription` (`WaitForCancellationAsync`), whose
code lies outside the sources at hand — "transition is idempotent —
invoking cancellation a second time is a no-op"; the registered cleanup
runs on the first trigger only.  The Boolean is the cancelled flag. -/
def cancelSubscription (ch : AMQPChannel) :
    Bool → Bool × List TransportOp
  | false => (true, subscriptionCleanupOps ch)
  | true => (true, [])

/-- Open/closed status of the shared connection on the transport side. -/
inductive ConnState where
  | opened
  | closed
deriving DecidableEq

/-- Modelled from the spec: the close semantics of the underlying AMQP
connection, whose code lies outside the sources at hand — per the spec the
controller's `Close` is idempotent and releases resources exactly once, so
the connection releases its resources when still open and a repeated close
is a no-op.  The Boolean records whether a release happened. -/
def connCloseStep : ConnState → ConnState × Bool
  | ConnState.opened => (ConnState.closed, true)
  | ConnState.closed => (ConnState.closed, false)

/-- Outcome of a `Controller.Close` call: resulting transport-side
connection state, whether resources were released by this call, and the
transport operations issued.  `Close` returns nothing in the source, so no
error component exists. -/
structure CloseOutcome where
  connState : ConnState
  released : Bool
  trace : List TransportOp
deriving DecidableEq

/-- Controller.Close (part_000 lines 421-425): when the connection field is
nil nothing happens; otherwise the connection close is issued. -/
def Controller.Close (c : Controller) (s : ConnState) : CloseOutcome :=
  match c.connection with
  | none => { connState := s, released := false, trace := [] }
  | some _ =>
      let r := connCloseStep s
      { connState := r.1, released := r.2,
        trace := [TransportOp.connectionClose] }

/-- Result surfaced to the caller of an acknowledgement method together
with the operation issued on the underlying delivery. -/
inductive AckOp where
  | ack (multiple : Bool)
  | nack (multiple : Bool) (requeue : Bool)
deriving DecidableEq

/-- What an acknowledgement method does: the error it lets the caller see,
and the transport operation it issues. -/
structure AckOutcome where
  callerError : Option String
  op : AckOp
deriving DecidableEq

/-- AcknowledgementHandler.AckMessage (part_000 lines 435-437): issues
`Ack(false)` on the stored delivery and discards the transport error. -/
def AckMessage (_transportResult : Except String Unit) : AckOutcome :=
  { callerError := none, op := AckOp.ack false }

/-- AcknowledgementHandler.NakMessage (part_000 lines 440-442): issues
`Nack(false, false)` — multiple false, requeue false — on the stored
delivery and discards the transport error. -/
def NakMessage (_transportResult : Except String Unit) : AckOutcome :=
  { callerError := none, op := AckOp.nack false false }

/-- Modelled from the spec: `brokers.DefaultQueueGroupID`, the default
queue-group identifier, whose defining code lies outside the sources at
hand; only its existence as a fixed constant matters here. -/
def DefaultQueueGroupID : String := "default-queue-group-id"

/-- Modelled from the spec: `extensions.DummyLogger`, the default logger
capability installed at construction; loggers are opaque here and
identified by number. -/
def DummyLoggerId : Nat := 0

/-- A configuration option (part_000 lines 263-288).  `withConnectionOpts`
carries the outcome of the `amqp.DialConfig` call it performs with its
configuration. -/
inductive ControllerOption where
  | withQueueGroup (name : String)
  | withLogger (logger : Nat)
  | withConnectionOpts (dialResult : Except String Connection)

/-- Application of one option to the controller under construction. -/
def applyOption (c : Controller) : ControllerOption → Except String Controller
  | ControllerOption.withQueueGroup name =>
      Except.ok { c with queueGroup := name }
  | ControllerOption.withLogger l => Except.ok { c with logger := l }
  | ControllerOption.withConnectionOpts dialResult =>
      match dialResult with
      | Except.error e =>
          Except.error ("could not connect to RabbitMQ: " ++ e)
      | Except.ok conn => Except.ok { c with connection := some conn }

/-- The option loop of NewController (part_000 lines 244-248): options are
applied in order, a failing option aborting construction with its error
wrapped. -/
def applyOptions (c : Controller) :
    List ControllerOption → Except String Controller
  | [] => Except.ok c
  | o :: rest =>
      match applyOption c o with
      | Except.error e =>
          Except.error ("could not apply option to controller: " ++ e)
      | Except.ok c1 => applyOptions c1 rest

/-- The default controller NewController starts from (part_000 lines
237-241). -/
def initialController (url : String) : Controller :=
  { url := url, connection := none, logger := DummyLoggerId,
    queueGroup := DefaultQueueGroupID }

/-- Outcome of construction: the returned value and the urls the
construction-level `amqp.Dial` was invoked on. -/
structure NewControllerOutcome where
  result : Except String Controller
  dialedUrls : List String
deriving DecidableEq

/-- NewController (part_000 lines 235-260): build the default controller,
apply the options in order, and dial the url only when no option already
supplied a connection. -/
def NewController (dial : String → Except String Connection) (url : String)
    (options : List ControllerOption) : NewControllerOutcome :=
  match applyOptions (initialController url) options with
  | Except.error e => { result := Except.error e, dialedUrls := [] }
  | Except.ok c =>
      match c.connection with
      | some _ => { result := Except.ok c, dialedUrls := [] }
      | none =>
          match dial url with
          | Except.error e =>
              { result := Except.error
                  ("could not connect to RabbitMQ: " ++ e)
                dialedUrls := [url] }
          | Except.ok conn =>
              { result := Except.ok { c with connection := some conn }
                dialedUrls := [url] }

/-- The forwarding task transmits exactly the pointwise conversion of the
delivery stream. -/
theorem forwardLoop_eq_map (ds : List Delivery) :
    forwardLoop ds = ds.map convertDelivery := by
  induction ds with
  | nil => rfl
  | cons d rest ih => simp [forwardLoop, ih]

/-- C1: publishing encodes the headers mapping into the wire table one
entry per key with byte values passed through unchanged; the subscribe-side
decoding coerces byte values unchanged, UTF8-encodes string values, and
UTF8-encodes the default string rendering of any other value; hence
decoding an encoded mapping yields the byte-valued mapping back for every
mapping. -/
theorem header_roundtrip_c1 (h : List (String × Bytes)) :
    encodeHeaders h = h.map (fun kv => (kv.1, FieldValue.bytes kv.2)) ∧
    decodeHeaders (encodeHeaders h) = h ∧
    (∀ b : Bytes, decodeValue (FieldValue.bytes b) = b) ∧
    (∀ s : String, decodeValue (FieldValue.str s) = utf8Bytes s) ∧
    (∀ r : String, decodeValue (FieldValue.other r) = utf8Bytes r) := by
  refine ⟨?_, ?_, fun _ => rfl, fun _ => rfl, fun _ => rfl⟩
  · induction h with
    | nil => rfl
    | cons kv rest ih => cases kv; simp [encodeHeaders, ih]
  · induction h with
    | nil => rfl
    | cons kv rest ih =>
        cases kv
        simp [encodeHeaders, decodeHeaders, decodeValue, ih]

/-- C2: on one subscription the forwarding task transmits the converted
deliveries in exactly the order received — the transmitted list is the
pointwise conversion of the received list, so FIFO with no reordering and
no dropping — and the subscription's internal message buffer has capacity
BrokerMessagesQueueSize. -/
theorem fifo_forwarding_c2 (ds : List Delivery) (c : Controller)
    (env : Option Connection → SubscribeEnv) (qn : String) (ch : AMQPChannel)
    (hch : (env c.connection).channelResult = Except.ok ch)
    (hdecl : (env c.connection).declareResult = Except.ok ())
    (hcons : (env c.connection).consumeResult = Except.ok ds) :
    forwardLoop ds = ds.map convertDelivery ∧
    (c.Subscribe env qn).result = Except.ok
      { messagesCapacity := BrokerMessagesQueueSize, cancelCapacity := 1,
        messages := ds.map convertDelivery, channel := some ch } := by
  refine ⟨forwardLoop_eq_map ds, ?_⟩
  simp [Controller.Subscribe, hch, hdecl, hcons, forwardLoop_eq_map]

/-- Witness for C2 at one concrete delivery stream. -/
theorem fifo_forwarding_c2_witness :
    forwardLoop [⟨[("k", FieldValue.str "v")], [1, 2], 7⟩] =
      List.map convertDelivery [⟨[("k", FieldValue.str "v")], [1, 2], 7⟩] ∧
    (Controller.Subscribe ⟨"amqp://h", some ⟨0⟩, 0, "g"⟩
        (fun _ => ⟨Except.ok ⟨1⟩, Except.ok (),
          Except.ok [⟨[("k", FieldValue.str "v")], [1, 2], 7⟩]⟩)
        "q").result = Except.ok
      { messagesCapacity := BrokerMessagesQueueSize, cancelCapacity := 1,
        messages :=
          List.map convertDelivery [⟨[("k", FieldValue.str "v")], [1, 2], 7⟩],
        channel := some ⟨1⟩ } :=
  fifo_forwarding_c2 _ _ _ _ _ rfl rfl rfl

/-- C7: for every outcome of the underlying transport call, AckMessage and
NakMessage surface no error to the caller, AckMessage issues a non-multiple
acknowledgement, and NakMessage issues a rejection with the requeue flag
false, so the message is discarded rather than requeued. -/
theorem ack_nack_fire_and_forget_c7 (r : Except String Unit) :
    (AckMessage r).callerError = none ∧
    (NakMessage r).callerError = none ∧
    (AckMessage r).op = AckOp.ack false ∧
    (NakMessage r).op = AckOp.nack false false :=
  ⟨rfl, rfl, rfl, rfl⟩

/-- C8: triggering a subscription's cancellation performs the cleanup
(consumer cancellation plus channel close) exactly once — the second
trigger is a no-op — and on a controller holding a connection a second
Close releases nothing further; neither operation has an error result. -/
theorem teardown_idempotent_c8 (c : Controller) (ch : AMQPChannel)
    (hc : c.connection.isSome = true) :
    (cancelSubscription ch false).2 = subscriptionCleanupOps ch ∧
    (cancelSubscription ch (cancelSubscription ch false).1).2 = [] ∧
    (c.Close ConnState.opened).released = true ∧
    (c.Close (c.Close ConnState.opened).connState).released = false := by
  rcases c with ⟨url, conn, lg, qg⟩
  cases conn with
  | none => simp at hc
  | some conn => exact ⟨rfl, rfl, rfl, rfl⟩

/-- Witness for C8 at one concrete controller and channel. -/
theorem teardown_idempotent_c8_witness :
    (cancelSubscription ⟨3⟩ false).2 = subscriptionCleanupOps ⟨3⟩ ∧
    (cancelSubscription ⟨3⟩ (cancelSubscription ⟨3⟩ false).1).2 = [] ∧
    (Controller.Close ⟨"amqp://h", some ⟨0⟩, 0, "g"⟩ ConnState.opened).released
      = true ∧
    (Controller.Close ⟨"amqp://h", some ⟨0⟩, 0, "g"⟩
      (Controller.Close ⟨"amqp://h", some ⟨0⟩, 0, "g"⟩
        ConnState.opened).connState).released = false :=
  teardown_idempotent_c8 ⟨"amqp://h", some ⟨0⟩, 0, "g"⟩ ⟨3⟩ rfl

/-- C9: the queue-group identifier does not influence Publish or
Subscribe: two controllers identical except for their queue group produce
identical outcomes — same transport operations, same results. -/
theorem queuegroup_noninterference_c9 (c : Controller) (g : String)
    (envP : Option Connection → PublishEnv)
    (envS : Option Connection → SubscribeEnv) (qn : String)
    (bm : BrokerMessage) :
    Controller.Publish { c with queueGroup := g } envP qn bm =
      c.Publish envP qn bm ∧
    Controller.Subscribe { c with queueGroup := g } envS qn =
      c.Subscribe envS qn :=
  ⟨rfl, rfl⟩

/-- C10: closing a controller whose connection was never established
issues no transport operation, releases nothing, leaves the transport-side
state unchanged, and has no error result. -/
theorem close_nil_connection_c10 (c : Controller) (s : ConnState)
    (h : c.connection = none) :
    c.Close s = { connState := s, released := false, trace := [] } := by
  simp [Controller.Close, h]

/-- Witness for C10 at a zero-value-like controller. -/
theorem close_nil_connection_c10_witness :
    Controller.Close ⟨"", none, 0, ""⟩ ConnState.opened =
      { connState := ConnState.opened, released := false, trace := [] } :=
  close_nil_connection_c10 ⟨"", none, 0, ""⟩ ConnState.opened rfl

/-- C3: every queue declaration issued by Publish or Subscribe names the
destination and uses the fixed flags not durable, not exclusive, not
auto-delete, and every send issued by Publish carries the constant content
type "text/plain" and the unmodified payload bytes as body. -/
theorem fixed_wire_params_c3 (c : Controller)
    (envP : Option Connection → PublishEnv)
    (envS : Option Connection → SubscribeEnv) (qn : String)
    (bm : BrokerMessage) :
    (∀ args, TransportOp.queueDeclare args ∈ (c.Publish envP qn bm).trace →
      args.queue = qn ∧ args.durable = false ∧ args.exclusive = false ∧
        args.autoDelete = false) ∧
    (∀ args, TransportOp.queueDeclare args ∈ (c.Subscribe envS qn).trace →
      args.queue = qn ∧ args.durable = false ∧ args.exclusive = false ∧
        args.autoDelete = false) ∧
    (∀ ex rk m i msg,
      TransportOp.publishMsg ex rk m i msg ∈ (c.Publish envP qn bm).trace →
      msg.contentType = "text/plain" ∧ msg.body = bm.payload) := by
  refine ⟨?_, ?_, ?_⟩
  · intro args hmem
    cases h1 : (envP c.connection).channelResult with
    | error e => simp [Controller.Publish, h1] at hmem
    | ok ch =>
      cases h2 : (envP c.connection).declareResult with
      | error e =>
          simp [Controller.Publish, h1, h2] at hmem
          subst hmem; exact ⟨rfl, rfl, rfl, rfl⟩
      | ok u =>
          cases h3 : (envP c.connection).publishResult with
          | error e =>
              simp [Controller.Publish, h1, h2, h3] at hmem
              subst hmem; exact ⟨rfl, rfl, rfl, rfl⟩
          | ok v =>
              simp [Controller.Publish, h1, h2, h3] at hmem
              subst hmem; exact ⟨rfl, rfl, rfl, rfl⟩
  · intro args hmem
    cases h1 : (envS c.connection).channelResult with
    | error e => simp [Controller.Subscribe, h1] at hmem
    | ok ch =>
      cases h2 : (envS c.connection).declareResult with
      | error e =>
          simp [Controller.Subscribe, h1, h2] at hmem
          subst hmem; exact ⟨rfl, rfl, rfl, rfl⟩
      | ok u =>
          cases h3 : (envS c.connection).consumeResult with
          | error e =>
              simp [Controller.Subscribe, h1, h2, h3] at hmem
              subst hmem; exact ⟨rfl, rfl, rfl, rfl⟩
          | ok ds =>
              simp [Controller.Subscribe, h1, h2, h3] at hmem
              subst hmem; exact ⟨rfl, rfl, rfl, rfl⟩
  · intro ex rk m i msg hmem
    cases h1 : (envP c.connection).channelResult with
    | error e => simp [Controller.Publish, h1] at hmem
    | ok ch =>
      cases h2 : (envP c.connection).declareResult with
      | error e => simp [Controller.Publish, h1, h2] at hmem
      | ok u =>
          cases h3 : (envP c.connection).publishResult with
          | error e =>
              simp [Controller.Publish, h1, h2, h3] at hmem
              obtain ⟨he, hr, hm, hi, hmsg⟩ := hmem
              subst hmsg; exact ⟨rfl, rfl⟩
          | ok v =>
              simp [Controller.Publish, h1, h2, h3] at hmem
              obtain ⟨he, hr, hm, hi, hmsg⟩ := hmem
              subst hmsg; exact ⟨rfl, rfl⟩

/-- Witness for C3 at one concrete publish trace. -/
theorem fixed_wire_params_c3_witness :
    ((mkDeclareArgs "q").queue = "q" ∧ (mkDeclareArgs "q").durable = false ∧
      (mkDeclareArgs "q").exclusive = false ∧
      (mkDeclareArgs "q").autoDelete = false) ∧
    (Publishing.mk "text/plain" [9] (encodeHeaders [("k", [5])])).contentType
        = "text/plain" ∧
    (Publishing.mk "text/plain" [9] (encodeHeaders [("k", [5])])).body
        = [9] := by
  have h := fixed_wire_params_c3 ⟨"u", some ⟨0⟩, 5, "g"⟩
    (fun _ => ⟨Except.ok ⟨1⟩, Except.ok (), Except.ok ()⟩)
    (fun _ => ⟨Except.ok ⟨1⟩, Except.ok (), Except.ok []⟩) "q"
    ⟨[("k", [5])], [9]⟩
  exact ⟨h.1 (mkDeclareArgs "q")
      (List.Mem.tail _ (List.Mem.head _)),
    h.2.2 "" "q" false false
      (Publishing.mk "text/plain" [9] (encodeHeaders [("k", [5])]))
      (List.Mem.tail _ (List.Mem.tail _ (List.Mem.head _)))⟩

/-- C4: Publish returns an error exactly when channel open, queue
declaration or the send fails, classified as ChannelError, DeclareError or
TransportError respectively; a failing step aborts the call, so the trace
of an aborted call contains no later operation; and whenever the dedicated
channel was opened, its close is the last operation issued before Publish
returns. -/
theorem publish_error_cases_c4 (c : Controller)
    (env : Option Connection → PublishEnv) (qn : String)
    (bm : BrokerMessage) :
    ((c.Publish env qn bm).result = Except.ok () ↔
      (∃ ch, (env c.connection).channelResult = Except.ok ch) ∧
      (env c.connection).declareResult = Except.ok () ∧
      (env c.connection).publishResult = Except.ok ()) ∧
    (∀ e, (env c.connection).channelResult = Except.error e →
      c.Publish env qn bm =
        ⟨Except.error (PublishError.channelError e),
          [TransportOp.openChannel]⟩) ∧
    (∀ ch e, (env c.connection).channelResult = Except.ok ch →
      (env c.connection).declareResult = Except.error e →
      c.Publish env qn bm =
        ⟨Except.error
            (PublishError.declareError ("failed to declare queue: " ++ e)),
          [TransportOp.openChannel,
            TransportOp.queueDeclare (mkDeclareArgs qn),
            TransportOp.channelClose ch]⟩) ∧
    (∀ ch e, (env c.connection).channelResult = Except.ok ch →
      (env c.connection).declareResult = Except.ok () →
      (env c.connection).publishResult = Except.error e →
      (c.Publish env qn bm).result =
        Except.error (PublishError.transportError e)) ∧
    (∀ ch, (env c.connection).channelResult = Except.ok ch →
      (c.Publish env qn bm).trace.getLast? =
        some (TransportOp.channelClose ch)) := by
  refine ⟨?_, ?_, ?_, ?_, ?_⟩
  · cases h1 : (env c.connection).channelResult with
    | error e => simp [Controller.Publish, h1]
    | ok ch =>
      cases h2 : (env c.connection).declareResult with
      | error e => simp [Controller.Publish, h1, h2]
      | ok u =>
          cases u
          cases h3 : (env c.connection).publishResult with
          | error e => simp [Controller.Publish, h1, h2, h3]
          | ok v => cases v; simp [Controller.Publish, h1, h2, h3]
  · intro e h1
    simp [Controller.Publish, h1]
  · intro ch e h1 h2
    simp [Controller.Publish, h1, h2]
  · intro ch e h1 h2 h3
    simp [Controller.Publish, h1, h2, h3]
  · intro ch h1
    cases h2 : (env c.connection).declareResult with
    | error e => simp [Controller.Publish, h1, h2, List.getLast?]
    | ok u =>
        cases h3 : (env c.connection).publishResult with
        | error e => simp [Controller.Publish, h1, h2, h3, List.getLast?]
        | ok v => simp [Controller.Publish, h1, h2, h3, List.getLast?]

/-- Witness for C4: a failing channel open, and the channel close ending a
successful call's trace. -/
theorem publish_error_cases_c4_witness :
    Controller.Publish ⟨"u", some ⟨0⟩, 5, "g"⟩
        (fun _ => ⟨Except.error "boom", Except.ok (), Except.ok ()⟩) "q"
        ⟨[], [1]⟩ =
      ⟨Except.error (PublishError.channelError "boom"),
        [TransportOp.openChannel]⟩ ∧
    (Controller.Publish ⟨"u", some ⟨0⟩, 5, "g"⟩
        (fun _ => ⟨Except.ok ⟨1⟩, Except.ok (), Except.ok ()⟩) "q"
        ⟨[], [1]⟩).trace.getLast? = some (TransportOp.channelClose ⟨1⟩) :=
  ⟨(publish_error_cases_c4 _ _ _ _).2.1 "boom" rfl,
    (publish_error_cases_c4 _ _ _ _).2.2.2.2 ⟨1⟩ rfl⟩

/-- C5: Subscribe returns a subscription exactly when channel open, queue
declaration and consume start all succeed, classifying the failures as
ChannelError, DeclareError and ConsumeStartError; on success the returned
subscription keeps the opened channel, no channel close is issued during
the call, and its pipeline transmits the converted delivery stream. -/
theorem subscribe_error_cases_c5 (c : Controller)
    (env : Option Connection → SubscribeEnv) (qn : String) :
    ((∃ sub, (c.Subscribe env qn).result = Except.ok sub) ↔
      (∃ ch, (env c.connection).channelResult = Except.ok ch) ∧
      (env c.connection).declareResult = Except.ok () ∧
      (∃ ds, (env c.connection).consumeResult = Except.ok ds)) ∧
    (∀ e, (env c.connection).channelResult = Except.error e →
      c.Subscribe env qn =
        ⟨Except.error (SubscribeError.channelError e),
          [TransportOp.openChannel]⟩) ∧
    (∀ ch e, (env c.connection).channelResult = Except.ok ch →
      (env c.connection).declareResult = Except.error e →
      (c.Subscribe env qn).result = Except.error
        (SubscribeError.declareError ("failed to declare queue: " ++ e))) ∧
    (∀ ch e, (env c.connection).channelResult = Except.ok ch →
      (env c.connection).declareResult = Except.ok () →
      (env c.connection).consumeResult = Except.error e →
      (c.Subscribe env qn).result = Except.error
        (SubscribeError.consumeStartError
          ("failed to start consuming from queue: " ++ e))) ∧
    (∀ ch ds, (env c.connection).channelResult = Except.ok ch →
      (env c.connection).declareResult = Except.ok () →
      (env c.connection).consumeResult = Except.ok ds →
      (c.Subscribe env qn).result = Except.ok
        { messagesCapacity := BrokerMessagesQueueSize, cancelCapacity := 1,
          messages := forwardLoop ds, channel := some ch } ∧
      TransportOp.channelClose ch ∉ (c.Subscribe env qn).trace) := by
  refine ⟨?_, ?_, ?_, ?_, ?_⟩
  · cases h1 : (env c.connection).channelResult with
    | error e => simp [Controller.Subscribe, h1]
    | ok ch =>
      cases h2 : (env c.connection).declareResult with
      | error e => simp [Controller.Subscribe, h1, h2]
      | ok u =>
          cases u
          cases h3 : (env c.connection).consumeResult with
          | error e => simp [Controller.Subscribe, h1, h2, h3]
          | ok ds => simp [Controller.Subscribe, h1, h2, h3]
  · intro e h1
    simp [Controller.Subscribe, h1]
  · intro ch e h1 h2
    simp [Controller.Subscribe, h1, h2]
  · intro ch e h1 h2 h3
    simp [Controller.Subscribe, h1, h2, h3]
  · intro ch ds h1 h2 h3
    refine ⟨by simp [Controller.Subscribe, h1, h2, h3], ?_⟩
    simp [Controller.Subscribe, h1, h2, h3]

/-- Witness for C5 on a successful subscribe with an empty stream. -/
theorem subscribe_error_cases_c5_witness :
    (Controller.Subscribe ⟨"u", some ⟨0⟩, 5, "g"⟩
        (fun _ => ⟨Except.ok ⟨2⟩, Except.ok (), Except.ok []⟩) "q").result =
      Except.ok
        { messagesCapacity := BrokerMessagesQueueSize, cancelCapacity := 1,
          messages := forwardLoop [], channel := some ⟨2⟩ } ∧
    TransportOp.channelClose ⟨2⟩ ∉
      (Controller.Subscribe ⟨"u", some ⟨0⟩, 5, "g"⟩
        (fun _ => ⟨Except.ok ⟨2⟩, Except.ok (), Except.ok []⟩) "q").trace :=
  (subscribe_error_cases_c5 _ _ _).2.2.2.2 ⟨2⟩ [] rfl rfl rfl

/-- C6: construction applies the supplied options sequentially in the
order given, dials the address only when no option already supplied a
connection, and returns an error with no controller when an option or the
dial fails. -/
theorem construction_c6 (dial : String → Except String Connection)
    (url : String) (options : List ControllerOption) :
    (∀ (c0 : Controller) (os1 os2 : List ControllerOption),
      applyOptions c0 (os1 ++ os2) =
        (match applyOptions c0 os1 with
         | Except.error e => Except.error e
         | Except.ok c1 => applyOptions c1 os2)) ∧
    (∀ c conn, applyOptions (initialController url) options = Except.ok c →
      c.connection = some conn →
      NewController dial url options = ⟨Except.ok c, []⟩) ∧
    (∀ c conn, applyOptions (initialController url) options = Except.ok c →
      c.connection = none → dial url = Except.ok conn →
      NewController dial url options =
        ⟨Except.ok { c with connection := some conn }, [url]⟩) ∧
    (∀ c e, applyOptions (initialController url) options = Except.ok c →
      c.connection = none → dial url = Except.error e →
      NewController dial url options =
        ⟨Except.error ("could not connect to RabbitMQ: " ++ e), [url]⟩) ∧
    (∀ e, applyOptions (initialController url) options = Except.error e →
      NewController dial url options = ⟨Except.error e, []⟩) := by
  refine ⟨?_, ?_, ?_, ?_, ?_⟩
  · intro c0 os1 os2
    induction os1 generalizing c0 with
    | nil => simp [applyOptions]
    | cons o rest ih =>
        cases ho : applyOption c0 o with
        | error e => simp [applyOptions, ho]
        | ok c1 => simp [applyOptions, ho, ih c1]
  · intro c conn hopts hconn
    simp [NewController, hopts, hconn]
  · intro c conn hopts hconn hdial
    simp [NewController, hopts, hconn, hdial]
  · intro c e hopts hconn hdial
    simp [NewController, hopts, hconn, hdial]
  · intro e hopts
    simp [NewController, hopts]

/-- Witness for C6: one option applied, then the dial supplying the
connection. -/
theorem construction_c6_witness :
    NewController (fun _ => Except.ok ⟨5⟩) "amqp://h"
        [ControllerOption.withQueueGroup "g"] =
      ⟨Except.ok ⟨"amqp://h", some ⟨5⟩, DummyLoggerId, "g"⟩, ["amqp://h"]⟩ :=
  (construction_c6 _ _ _).2.2.1 ⟨"amqp://h", none, DummyLoggerId, "g"⟩ ⟨5⟩
    rfl rfl rfl

end RabbitMQBroker
